import Mathlib

/-!
Shallow embedding of the expensify-be repository (an Express + Mongoose
personal-finance API) and proofs about its repayment reconciliation,
expense validation, category uniqueness and payment summaries.

Conventions of the embedding:
* Document ids and user ids are natural numbers; every id handled by a
  route is therefore a well-formed ObjectId, so the `isValidObjectId`
  format checks of the routes are vacuously true and not modelled.
* JS numbers carrying money amounts are modelled as exact rationals.
* A request field that may be absent from the JSON body is an `Option`.
* Mongoose semantics modelled faithfully: `save` runs document
  validation and the schema's `pre save` middleware, while the
  `findByIdAndUpdate` / `findOneAndUpdate` family applies the update
  directly and does NOT run document middleware (so a `pre save` hook
  is bypassed there); update validators run only when the call passes
  `runValidators: true`, and only on the paths present in the update.
* String `maxlength` validators and trimming are not modelled; no claim
  depends on them.
-/

namespace Expensify

/-- Direction of a BorrowedMoney record, source enum 'borrowed' / 'lent'
(src/models/CreditCard.js, borrowedMoneySchema `type` field). -/
inductive BorrowType where
  | borrowed
  | lent
deriving DecidableEq, Repr

/-- Status of a BorrowedMoney record, source enum 'pending' / 'partial' /
'repaid'.  The constructor `partPaid` models the source string 'partial'. -/
inductive BStatus where
  | pending
  | partPaid
  | repaid
deriving DecidableEq, Repr

/-- Payment type, source enum 'credit_card' / 'borrowed'
(src/models/Payment.js). -/
inductive PayType where
  | creditCard
  | borrowed
deriving DecidableEq, Repr

/-- Expense payment mode, source enum 'cash' / 'credit_card' / 'borrowed'
(src/unnamed/part_002, expenseSchema). -/
inductive PayMode where
  | cash
  | creditCard
  | borrowed
deriving DecidableEq, Repr

/-- Payment method, source enum 'cash' / 'bank_transfer' / 'upi' /
'cheque' (src/models/Payment.js). -/
inductive PayMethod where
  | cash
  | bankTransfer
  | upi
  | cheque
deriving DecidableEq, Repr

/-- Recurrence frequency enum of expenseSchema. -/
inductive RecFreq where
  | daily
  | weekly
  | monthly
  | yearly
deriving DecidableEq, Repr

/-- HTTP status codes the routes return. -/
inductive HStatus where
  | ok200
  | created201
  | badRequest400
  | notFound404
  | serverError500
deriving DecidableEq, Repr

/-- A BorrowedMoney document (src/models/CreditCard.js, second schema in
the file: borrowedMoneySchema). -/
structure BorrowedMoney where
  id : Nat
  user_id : Nat
  name : String
  phone : Option String
  amount : ℚ
  type : BorrowType
  status : BStatus
  note : Option String
  repaid_amount : ℚ
deriving DecidableEq, Repr

/-- A Payment document (src/models/Payment.js). -/
structure Payment where
  id : Nat
  user_id : Nat
  type : PayType
  reference_id : Nat
  amount : ℚ
  payment_date : Int
  note : Option String
  payment_method : PayMethod
deriving DecidableEq, Repr

/-- A CreditCard document (src/models/CreditCard.js, first schema). -/
structure CreditCard where
  id : Nat
  user_id : Nat
  bank_name : String
  card_number : String
  limit_amount : Option ℚ
  due_date : Nat
  is_active : Bool
deriving DecidableEq, Repr

/-- A Category document (src/models/Category.js). -/
structure Category where
  id : Nat
  user_id : Nat
  name : String
  is_default : Bool
  color : String
  icon : String
deriving DecidableEq, Repr

/-- An Expense document (src/unnamed/part_002, expenseSchema). -/
structure Expense where
  id : Nat
  user_id : Nat
  amount : ℚ
  category_id : Nat
  payment_mode : PayMode
  credit_card_id : Option Nat
  borrowed_id : Option Nat
  date : Int
  note : Option String
  is_recurring : Bool
  recurring_frequency : Option RecFreq
deriving DecidableEq, Repr

/-- The whole document store, one list per collection, as seen by one
server process. -/
structure DB where
  categories : List Category
  creditCards : List CreditCard
  borrowed : List BorrowedMoney
  expenses : List Expense
  payments : List Payment
deriving DecidableEq, Repr

/-- The pure status function of the spec, section 3: repaid 0 gives
pending, 0 < repaid < amount gives partial, repaid at or above amount
gives repaid.  Branch order follows the source hook, which tests
equality with 0 first. -/
def statusOf (repaid amount : ℚ) : BStatus :=
  if repaid = 0 then BStatus.pending
  else if repaid ≥ amount then BStatus.repaid
  else BStatus.partPaid

/-- The `borrowedMoneySchema.pre save` hook (src/models/CreditCard.js
lines 100 to 115): clamp `repaid_amount` down to `amount`, then derive
`status` from the clamped value. -/
def borrowedPreSave (b : BorrowedMoney) : BorrowedMoney :=
  let r := if b.repaid_amount > b.amount then b.amount else b.repaid_amount
  { b with
    repaid_amount := r,
    status :=
      if r = 0 then BStatus.pending
      else if r ≥ b.amount then BStatus.repaid
      else BStatus.partPaid }

/-- Document validation of paymentSchema relevant to the claims:
`amount` has `min: 0.01` (src/models/Payment.js line 21).  Runs on
`payment.save()`. -/
def paymentDocValid (p : Payment) : Bool :=
  decide ((1 / 100 : ℚ) ≤ p.amount)

/-- Pointwise conditional update of a list: every element satisfying the
predicate is replaced by its image under `g`.  Models the
`findOneAndUpdate` / `findByIdAndUpdate` family; those update the first
matching document only, and since the predicates used here test the
primary-key id (possibly together with the owner), at most one
document matches, so the map touches exactly that document. -/
def mapWhere {α : Type} (l : List α) (q : α → Bool) (g : α → α) : List α :=
  l.map fun x => if q x then g x else x

/-- Conditional update of the borrowed collection by document id. -/
def condMapBorrowed (l : List BorrowedMoney) (i : Nat)
    (g : BorrowedMoney → BorrowedMoney) : List BorrowedMoney :=
  mapWhere l (fun b => b.id == i) g

/-- BorrowedMoney.findByIdAndUpdate with update document containing only
`repaid_amount` (POST /api/payments lines 74 to 76, and the identical
calls in PUT and DELETE /api/payments/:id).  No `runValidators` option
is passed there and document middleware does not run, so neither the
clamp nor the status derivation of the `pre save` hook happens. -/
def updateBorrowedRepaid (l : List BorrowedMoney) (i : Nat) (r : ℚ) :
    List BorrowedMoney :=
  condMapBorrowed l i fun b => { b with repaid_amount := r }

/-- Result of a route returning only a status code and the new store
state; the payload fields the claims do not mention are dropped. -/
structure RouteOut where
  status : HStatus
  db : DB
deriving DecidableEq, Repr

/-- Saving step of POST /api/payments (src/unnamed/part_001 lines 58 to
82): construct the Payment, run `payment.save()` (document validation;
a validation failure lands in the route's catch block as a 500 with
nothing written), then, when the type is 'borrowed', re-fetch the
record by id alone (`findById`, line 72) and set its `repaid_amount` to
`Math.min(repaid_amount + amount, amount)` via `findByIdAndUpdate`. -/
def createPaymentSave (db : DB) (uid : Nat) (type : PayType)
    (reference_id : Nat) (amount : ℚ) (payment_date : Int)
    (note : Option String) (payment_method : Option PayMethod)
    (newId : Nat) : RouteOut :=
  let payment : Payment :=
    { id := newId, user_id := uid, type := type, reference_id := reference_id,
      amount := amount, payment_date := payment_date, note := note,
      payment_method := payment_method.getD PayMethod.bankTransfer }
  if paymentDocValid payment then
    let db1 := { db with payments := db.payments ++ [payment] }
    match type with
    | PayType.borrowed =>
      match db1.borrowed.find? (fun b => b.id == reference_id) with
      | some borrowed =>
        let newRepaidAmount := min (borrowed.repaid_amount + amount) borrowed.amount
        ⟨HStatus.created201,
          { db1 with
            borrowed := updateBorrowedRepaid db1.borrowed reference_id newRepaidAmount }⟩
      | none => ⟨HStatus.serverError500, db1⟩
    | PayType.creditCard => ⟨HStatus.created201, db1⟩
  else ⟨HStatus.serverError500, db⟩

/-- POST /api/payments (src/unnamed/part_001 lines 18 to 87): validate
that the referenced credit card or borrowed record exists and belongs
to the caller, then save.  `payment_date` is the value after the
`payment_date || new Date()` defaulting of line 63. -/
def createPayment (db : DB) (uid : Nat) (type : PayType)
    (reference_id : Nat) (amount : ℚ) (payment_date : Int)
    (note : Option String) (payment_method : Option PayMethod)
    (newId : Nat) : RouteOut :=
  match type with
  | PayType.creditCard =>
    match db.creditCards.find? (fun c => c.id == reference_id && c.user_id == uid) with
    | none => ⟨HStatus.badRequest400, db⟩
    | some _ =>
      createPaymentSave db uid type reference_id amount payment_date note payment_method newId
  | PayType.borrowed =>
    match db.borrowed.find? (fun b => b.id == reference_id && b.user_id == uid) with
    | none => ⟨HStatus.badRequest400, db⟩
    | some _ =>
      createPaymentSave db uid type reference_id amount payment_date note payment_method newId

/-- Body of PUT /api/payments/:id; `none` is an absent field, which
Mongoose strips from the update so the stored value is kept. -/
structure PaymentUpdateBody where
  amount : Option ℚ := none
  payment_date : Option Int := none
  note : Option String := none
  payment_method : Option PayMethod := none
deriving DecidableEq, Repr

/-- Application of the PUT /api/payments/:id update document to one
Payment: fields present in the body replace the stored ones. -/
def applyPaymentUpdate (p : Payment) (body : PaymentUpdateBody) : Payment :=
  { p with
    amount := body.amount.getD p.amount,
    payment_date := body.payment_date.getD p.payment_date,
    note := match body.note with | some s => some s | none => p.note,
    payment_method := body.payment_method.getD p.payment_method }

/-- Update validators for PUT /api/payments/:id (`runValidators: true`):
only the paths present in the update are validated; the one relevant
validator is `amount` min 0.01. -/
def paymentUpdateValid (body : PaymentUpdateBody) : Bool :=
  match body.amount with
  | some a => decide ((1 / 100 : ℚ) ≤ a)
  | none => true

/-- Sum of the amounts of a list of payments, as the aggregation group
stage computes it; an empty list gives the `totalPaid[0]?.total || 0`
fallback value 0. -/
def sumAmounts (ps : List Payment) : ℚ :=
  ps.foldl (fun acc p => acc + p.amount) 0

/-- The aggregate of PUT and DELETE /api/payments/:id (src/unnamed/
part_001 lines 187 to 203 and 241 to 257): sum of the amounts of all
payments matching the caller's user id, type 'borrowed' and the given
reference id. -/
def totalPaidFor (ps : List Payment) (uid refId : Nat) : ℚ :=
  sumAmounts (ps.filter fun p =>
    p.user_id == uid && p.type == PayType.borrowed && p.reference_id == refId)

/-- Sum of the amounts of all payments of type 'borrowed' referencing a
record, with no user filter; this is the quantity the spec's recompute
rule speaks about.  It coincides with `totalPaidFor` whenever every
such payment belongs to the record's owner. -/
def sumBorrowedFor (ps : List Payment) (refId : Nat) : ℚ :=
  sumAmounts (ps.filter fun p =>
    p.type == PayType.borrowed && p.reference_id == refId)

/-- PUT /api/payments/:id (src/unnamed/part_001 lines 168 to 218):
`findOneAndUpdate` by id and owner with `runValidators: true` (a
validation failure throws before any write and the catch block answers
500); on a 'borrowed' payment whose record still exists, recompute the
record's `repaid_amount` as `min(sum of matching payments, amount)` via
`findByIdAndUpdate`.  Ids are primary keys, so updating every matching
document with `mapWhere` updates exactly the one `findOneAndUpdate`
touches. -/
def updatePayment (db : DB) (uid pid : Nat) (body : PaymentUpdateBody) : RouteOut :=
  if paymentUpdateValid body then
    match db.payments.find? (fun p => p.id == pid && p.user_id == uid) with
    | none => ⟨HStatus.notFound404, db⟩
    | some payment0 =>
      let payment := applyPaymentUpdate payment0 body
      let db1 := { db with
        payments := mapWhere db.payments (fun p => p.id == pid && p.user_id == uid)
          (fun p => applyPaymentUpdate p body) }
      if payment.type == PayType.borrowed then
        match db1.borrowed.find? (fun b => b.id == payment.reference_id) with
        | some borrowed =>
          let newRepaidAmount :=
            min (totalPaidFor db1.payments uid payment.reference_id) borrowed.amount
          ⟨HStatus.ok200,
            { db1 with
              borrowed := updateBorrowedRepaid db1.borrowed payment.reference_id newRepaidAmount }⟩
        | none => ⟨HStatus.ok200, db1⟩
      else ⟨HStatus.ok200, db1⟩
  else ⟨HStatus.serverError500, db⟩

/-- DELETE /api/payments/:id (src/unnamed/part_001 lines 223 to 269):
find the payment by id and owner (404 when absent), delete it by id,
then, for a 'borrowed' payment whose record still exists, recompute the
record's `repaid_amount` as `min(sum of remaining matching payments,
amount)` via `findByIdAndUpdate`. -/
def deletePayment (db : DB) (uid pid : Nat) : RouteOut :=
  match db.payments.find? (fun p => p.id == pid && p.user_id == uid) with
  | none => ⟨HStatus.notFound404, db⟩
  | some payment =>
    let db1 := { db with payments := db.payments.filter fun p => !(p.id == pid) }
    if payment.type == PayType.borrowed then
      match db1.borrowed.find? (fun b => b.id == payment.reference_id) with
      | some borrowed =>
        let newRepaidAmount :=
          min (totalPaidFor db1.payments uid payment.reference_id) borrowed.amount
        ⟨HStatus.ok200,
          { db1 with
            borrowed := updateBorrowedRepaid db1.borrowed payment.reference_id newRepaidAmount }⟩
      | none => ⟨HStatus.ok200, db1⟩
    else ⟨HStatus.ok200, db1⟩

/-- Result of POST /api/borrowed-money/:id/repay: status code, the
`remaining_amount` field of the response body when the handler emits
one, and the new store state. -/
structure RepayOut where
  status : HStatus
  remaining_amount : Option ℚ
  db : DB
deriving DecidableEq, Repr

/-- POST /api/borrowed-money/:id/repay (src/unnamed/part_001 lines 448
to 517): reject a missing or non-positive amount and a missing date
with 400; 404 when the record is absent or not the caller's; reject
with 400 and the pre-existing `remaining_amount` when the amount
exceeds `amount - repaid_amount`; otherwise save the Payment and set
`repaid_amount := repaid_amount + amount` (no clamp) together with an
explicit status of 'repaid' or 'partial' via `findByIdAndUpdate` with
`runValidators: true` (whose one relevant update validator is
`repaid_amount` min 0). -/
def repay (db : DB) (uid i : Nat) (amount : ℚ) (payment_date : Option Int)
    (note : Option String) (payment_method : Option PayMethod)
    (newId : Nat) : RepayOut :=
  if amount ≤ 0 then ⟨HStatus.badRequest400, none, db⟩
  else
    match payment_date with
    | none => ⟨HStatus.badRequest400, none, db⟩
    | some pd =>
      match db.borrowed.find? (fun b => b.id == i && b.user_id == uid) with
      | none => ⟨HStatus.notFound404, none, db⟩
      | some borrowedMoney =>
        let remainingAmount := borrowedMoney.amount - borrowedMoney.repaid_amount
        if amount > remainingAmount then
          ⟨HStatus.badRequest400, some remainingAmount, db⟩
        else
          let payment : Payment :=
            { id := newId, user_id := uid, type := PayType.borrowed,
              reference_id := i, amount := amount, payment_date := pd,
              note := some (note.getD ("Repayment for " ++ borrowedMoney.name)),
              payment_method := payment_method.getD PayMethod.cash }
          if paymentDocValid payment then
            let db1 := { db with payments := db.payments ++ [payment] }
            let newRepaidAmount := borrowedMoney.repaid_amount + amount
            if newRepaidAmount < 0 then ⟨HStatus.serverError500, none, db1⟩
            else
              let newStatus :=
                if newRepaidAmount ≥ borrowedMoney.amount then BStatus.repaid
                else BStatus.partPaid
              ⟨HStatus.created201, some (borrowedMoney.amount - newRepaidAmount),
                { db1 with
                  borrowed := condMapBorrowed db1.borrowed i fun b =>
                    { b with repaid_amount := newRepaidAmount, status := newStatus } }⟩
          else ⟨HStatus.serverError500, none, db⟩

/-- Body of PUT /api/borrowed-money/:id; `none` is an absent field. -/
structure BorrowedUpdateBody where
  name : Option String := none
  phone : Option String := none
  amount : Option ℚ := none
  type : Option BorrowType := none
  note : Option String := none
deriving DecidableEq, Repr

/-- Update validators for PUT /api/borrowed-money/:id
(`runValidators: true`): the one relevant validator is `amount` min
0.01.  `repaid_amount` and `status` are not in the update document, so
their validators and, middleware being skipped, the `pre save` clamp
and status derivation do not run. -/
def borrowedUpdateValid (body : BorrowedUpdateBody) : Bool :=
  match body.amount with
  | some a => decide ((1 / 100 : ℚ) ≤ a)
  | none => true

/-- Application of the PUT /api/borrowed-money/:id update document to
one record: only name, phone, amount, type and note are written. -/
def applyBorrowedUpdate (b : BorrowedMoney) (body : BorrowedUpdateBody) :
    BorrowedMoney :=
  { b with
    name := body.name.getD b.name,
    phone := match body.phone with | some s => some s | none => b.phone,
    amount := body.amount.getD b.amount,
    type := body.type.getD b.type,
    note := match body.note with | some s => some s | none => b.note }

/-- PUT /api/borrowed-money/:id (src/unnamed/part_001 lines 421 to 443):
`findOneAndUpdate` by id and owner setting name, phone, amount, type
and note, with `runValidators: true`. -/
def updateBorrowedMoney (db : DB) (uid i : Nat) (body : BorrowedUpdateBody) :
    RouteOut :=
  if borrowedUpdateValid body then
    match db.borrowed.find? (fun b => b.id == i && b.user_id == uid) with
    | none => ⟨HStatus.notFound404, db⟩
    | some _ =>
      ⟨HStatus.ok200,
        { db with
          borrowed := mapWhere db.borrowed (fun b => b.id == i && b.user_id == uid)
            (fun b => applyBorrowedUpdate b body) }⟩
  else ⟨HStatus.serverError500, db⟩

/-- Body of POST /api/expenses; `none` is an absent field (the empty
string that the route also treats as absent for the reference ids is
collapsed into `none`). -/
structure ExpenseCreateReq where
  amount : Option ℚ := none
  category_id : Option Nat := none
  payment_mode : Option PayMode := none
  credit_card_id : Option Nat := none
  borrowed_id : Option Nat := none
  date : Option Int := none
  note : Option String := none
  is_recurring : Option Bool := none
  recurring_frequency : Option RecFreq := none
deriving DecidableEq, Repr

/-- The `expenseSchema.pre save` hook (src/unnamed/part_002 lines 68 to
78): payment mode 'credit_card' without a credit card reference, or
'borrowed' without a borrowed reference, makes `save` fail. -/
def expensePreSaveOk (e : Expense) : Bool :=
  !(e.payment_mode == PayMode.creditCard && e.credit_card_id == none) &&
  !(e.payment_mode == PayMode.borrowed && e.borrowed_id == none)

/-- Document validation of expenseSchema relevant to the claims:
`amount` has min 0.01.  Runs on `expense.save()`. -/
def expenseDocValid (e : Expense) : Bool :=
  decide ((1 / 100 : ℚ) ≤ e.amount)

/-- POST /api/expenses (src/routes/expenses.js lines 19 to 149): reject
a missing or non-positive amount, a missing category, a missing payment
mode, an absent or foreign category, and — for payment mode
'credit_card' or 'borrowed' — a missing, absent or foreign conditional
reference, each with 400 before any write; then build the Expense and
save it (a `save` failure lands in the catch block as 500 with nothing
written).  `now` is the value of `new Date()` used when no date is
supplied. -/
def createExpense (db : DB) (uid : Nat) (req : ExpenseCreateReq)
    (newId : Nat) (now : Int) : RouteOut :=
  match req.amount with
  | none => ⟨HStatus.badRequest400, db⟩
  | some amount =>
    if amount ≤ 0 then ⟨HStatus.badRequest400, db⟩
    else
      match req.category_id with
      | none => ⟨HStatus.badRequest400, db⟩
      | some category_id =>
        match req.payment_mode with
        | none => ⟨HStatus.badRequest400, db⟩
        | some payment_mode =>
          match db.categories.find? (fun c => c.id == category_id && c.user_id == uid) with
          | none => ⟨HStatus.badRequest400, db⟩
          | some _ =>
            let ccCheck : Option RouteOut :=
              if payment_mode == PayMode.creditCard then
                match req.credit_card_id with
                | none => some ⟨HStatus.badRequest400, db⟩
                | some ccid =>
                  match db.creditCards.find? (fun c => c.id == ccid && c.user_id == uid) with
                  | none => some ⟨HStatus.badRequest400, db⟩
                  | some _ => none
              else none
            match ccCheck with
            | some out => out
            | none =>
              let bmCheck : Option RouteOut :=
                if payment_mode == PayMode.borrowed then
                  match req.borrowed_id with
                  | none => some ⟨HStatus.badRequest400, db⟩
                  | some bid =>
                    match db.borrowed.find? (fun b => b.id == bid && b.user_id == uid) with
                    | none => some ⟨HStatus.badRequest400, db⟩
                    | some _ => none
                else none
              match bmCheck with
              | some out => out
              | none =>
                let expense : Expense :=
                  { id := newId, user_id := uid, amount := amount,
                    category_id := category_id, payment_mode := payment_mode,
                    credit_card_id := req.credit_card_id,
                    borrowed_id := req.borrowed_id,
                    date := req.date.getD now, note := req.note,
                    is_recurring := req.is_recurring.getD false,
                    recurring_frequency := req.recurring_frequency }
                if expenseDocValid expense && expensePreSaveOk expense then
                  ⟨HStatus.created201, { db with expenses := db.expenses ++ [expense] }⟩
                else ⟨HStatus.serverError500, db⟩

/-- Body of PUT /api/expenses/:id; `none` is an absent field. -/
structure ExpenseUpdateBody where
  amount : Option ℚ := none
  category_id : Option Nat := none
  payment_mode : Option PayMode := none
  credit_card_id : Option Nat := none
  borrowed_id : Option Nat := none
  date : Option Int := none
  note : Option String := none
  is_recurring : Option Bool := none
  recurring_frequency : Option RecFreq := none
deriving DecidableEq, Repr

/-- Application of the PUT /api/expenses/:id update document to one
Expense: fields present in the body replace the stored ones. -/
def applyExpenseUpdate (e : Expense) (body : ExpenseUpdateBody) : Expense :=
  { e with
    amount := body.amount.getD e.amount,
    category_id := body.category_id.getD e.category_id,
    payment_mode := body.payment_mode.getD e.payment_mode,
    credit_card_id :=
      match body.credit_card_id with | some j => some j | none => e.credit_card_id,
    borrowed_id :=
      match body.borrowed_id with | some j => some j | none => e.borrowed_id,
    date := body.date.getD e.date,
    note := match body.note with | some s => some s | none => e.note,
    is_recurring := body.is_recurring.getD e.is_recurring,
    recurring_frequency :=
      match body.recurring_frequency with | some f => some f | none => e.recurring_frequency }

/-- Update validators for PUT /api/expenses/:id (`runValidators: true`):
only the paths present in the update are validated; the one relevant
validator is `amount` min 0.01. -/
def expenseUpdateValid (body : ExpenseUpdateBody) : Bool :=
  match body.amount with
  | some a => decide ((1 / 100 : ℚ) ≤ a)
  | none => true

/-- PUT /api/expenses/:id (src/routes/expenses.js lines 254 to 355):
find the expense by id and owner (404 when absent); validate the
category when one is supplied; validate the credit card only when BOTH
`payment_mode === 'credit_card'` AND a `credit_card_id` are supplied
(line 285), and the borrowed record only when BOTH
`payment_mode === 'borrowed'` AND a `borrowed_id` are supplied (line
304); then apply the body via `findByIdAndUpdate` with
`runValidators: true`.  Document middleware does not run there, so the
`pre save` cross-field check of expenseSchema is bypassed. -/
def updateExpense (db : DB) (uid eid : Nat) (body : ExpenseUpdateBody) : RouteOut :=
  match db.expenses.find? (fun x => x.id == eid && x.user_id == uid) with
  | none => ⟨HStatus.notFound404, db⟩
  | some _ =>
    let catCheck : Option RouteOut :=
      match body.category_id with
      | some cid =>
        match db.categories.find? (fun c => c.id == cid && c.user_id == uid) with
        | none => some ⟨HStatus.badRequest400, db⟩
        | some _ => none
      | none => none
    match catCheck with
    | some out => out
    | none =>
      let ccCheck : Option RouteOut :=
        if body.payment_mode == some PayMode.creditCard && !(body.credit_card_id == none) then
          match body.credit_card_id with
          | some ccid =>
            match db.creditCards.find? (fun c => c.id == ccid && c.user_id == uid) with
            | none => some ⟨HStatus.badRequest400, db⟩
            | some _ => none
          | none => none
        else none
      match ccCheck with
      | some out => out
      | none =>
        let bmCheck : Option RouteOut :=
          if body.payment_mode == some PayMode.borrowed && !(body.borrowed_id == none) then
            match body.borrowed_id with
            | some bid =>
              match db.borrowed.find? (fun b => b.id == bid && b.user_id == uid) with
              | none => some ⟨HStatus.badRequest400, db⟩
              | some _ => none
            | none => none
          else none
        match bmCheck with
        | some out => out
        | none =>
          if expenseUpdateValid body then
            ⟨HStatus.ok200,
              { db with
                expenses := mapWhere db.expenses (fun x => x.id == eid)
                  (fun x => applyExpenseUpdate x body) }⟩
          else ⟨HStatus.serverError500, db⟩

/-- ASCII lowering of one character, as core `Char.toLower` computes it:
codes 65 to 90 move up by 32, everything else is unchanged. -/
def lowerChar (c : Char) : Char :=
  if 65 ≤ c.toNat ∧ c.toNat ≤ 90 then Char.ofNat (c.toNat + 32) else c

/-- Case-insensitive string equality; models the anchored
case-insensitive regular expression of src/routes/categories.js line 16
for names free of regular-expression metacharacters. -/
def ciEq (a b : String) : Bool :=
  a.data.map lowerChar == b.data.map lowerChar

/-- The Category document POST /api/categories builds: `is_default`
false, color and icon falling back to the literals of
src/routes/categories.js lines 27 and 28. -/
def mkCategory (uid : Nat) (name : String) (color icon : Option String)
    (newId : Nat) : Category :=
  { id := newId, user_id := uid, name := name, is_default := false,
    color := color.getD "#667eea", icon := icon.getD "💰" }

/-- POST /api/categories (src/routes/categories.js lines 10 to 41):
reject with 400 when the caller already has a category whose name
matches case-insensitively; otherwise save the new category.  The
`any` test models the case-sensitive unique compound index on
(name, user_id) of src/models/Category.js line 32, whose duplicate-key
error would land in the catch block as 500. -/
def createCategory (db : DB) (uid : Nat) (name : String)
    (color icon : Option String) (newId : Nat) : RouteOut :=
  match db.categories.find? (fun c => ciEq c.name name && c.user_id == uid) with
  | some _ => ⟨HStatus.badRequest400, db⟩
  | none =>
    if db.categories.any (fun c => c.name == name && c.user_id == uid) then
      ⟨HStatus.serverError500, db⟩
    else
      ⟨HStatus.created201,
        { db with categories := db.categories ++ [mkCategory uid name color icon newId] }⟩

/-- One group of the payment totals response. -/
structure TypeTotal where
  amount : ℚ
  count : Nat
deriving DecidableEq, Repr

/-- The `totals` object of GET /api/payments/summary/totals: one group
per payment type, both always present. -/
structure PaymentTotals where
  credit_card : TypeTotal
  borrowed : TypeTotal
deriving DecidableEq, Repr

/-- The optional inclusive date-range filter built from `start_date` and
`end_date` query parameters. -/
def inRange (d : Int) (s e : Option Int) : Bool :=
  (match s with | some x => decide (x ≤ d) | none => true) &&
  (match e with | some y => decide (d ≤ y) | none => true)

/-- One group of the aggregation `group by $type`: `none` when no
payment of that type matched, as the aggregation emits no group then. -/
def summaryGroup (ps : List Payment) (t : PayType) : Option TypeTotal :=
  let l := ps.filter fun p => p.type == t
  if l.isEmpty then none else some ⟨sumAmounts l, l.length⟩

/-- GET /api/payments/summary/totals (src/unnamed/part_001 lines 274 to
314): filter the caller's payments by the optional date range, group by
type, then start from zeroed totals for both types and overwrite each
from its group when the group exists. -/
def paymentSummaryTotals (db : DB) (uid : Nat) (s e : Option Int) : PaymentTotals :=
  let filtered := db.payments.filter fun p => p.user_id == uid && inRange p.payment_date s e
  let base : PaymentTotals := ⟨⟨0, 0⟩, ⟨0, 0⟩⟩
  let t1 :=
    match summaryGroup filtered PayType.creditCard with
    | some g => { base with credit_card := g }
    | none => base
  match summaryGroup filtered PayType.borrowed with
  | some g => { t1 with borrowed := g }
  | none => t1

attribute [local semireducible] Rat.add Rat.sub Rat.mul Rat.inv

/-- Finding by the same predicate after a conditional update returns the
updated document, provided the update keeps the document matching. -/
theorem find?_mapWhere {α : Type} {l : List α} {q : α → Bool} {g : α → α}
    {x : α} (h : l.find? q = some x) (hq : q (g x) = true) :
    (mapWhere l q g).find? q = some (g x) := by
  induction l with
  | nil => simp [List.find?] at h
  | cons a t ih =>
    by_cases hqa : q a = true
    · rw [List.find?_cons_of_pos t hqa] at h
      injection h with h
      subst h
      simp only [mapWhere, List.map_cons, if_pos hqa]
      rw [List.find?_cons_of_pos _ hq]
    · rw [List.find?_cons_of_neg t hqa] at h
      simp only [mapWhere, List.map_cons, if_neg hqa]
      rw [List.find?_cons_of_neg _ hqa]
      exact ih h

/-- The aggregation of the payment update and delete routes filters by
the caller's user id; when every payment of type 'borrowed' referencing
the record belongs to the caller, it computes the plain per-record
sum the spec speaks about. -/
theorem totalPaid_eq_sumBorrowed (ps : List Payment) (uid refId : Nat)
    (hOwn : ∀ p ∈ ps, p.type = PayType.borrowed → p.reference_id = refId →
      p.user_id = uid) :
    totalPaidFor ps uid refId = sumBorrowedFor ps refId := by
  unfold totalPaidFor sumBorrowedFor
  congr 1
  apply List.filter_congr
  intro p hp
  rw [Bool.eq_iff_iff]
  simp only [Bool.and_eq_true, beq_iff_eq]
  constructor
  · rintro ⟨⟨_, h2⟩, h3⟩
    exact ⟨h2, h3⟩
  · rintro ⟨h2, h3⟩
    exact ⟨⟨hOwn p hp h2 h3, h2⟩, h3⟩

/-- Equal strings are case-insensitively equal. -/
theorem ciEq_of_eq {a b : String} (h : a = b) : ciEq a b = true := by
  subst h
  simp [ciEq]

/-- Case-insensitive equality is symmetric. -/
theorem ciEq_symm {a b : String} (h : ciEq a b = true) : ciEq b a = true := by
  unfold ciEq at h ⊢
  rw [beq_iff_eq] at h ⊢
  exact h.symm

/-- Case-insensitively equal strings match the same strings. -/
theorem ciEq_congr_right {a b : String} (c : String) (h : ciEq a b = true) :
    ciEq c a = ciEq c b := by
  unfold ciEq at h ⊢
  rw [beq_iff_eq] at h
  rw [h]

/-- A pending borrowed record of amount 100 with nothing repaid. -/
def c1BM : BorrowedMoney :=
  { id := 1, user_id := 7, name := "P", phone := none, amount := 100,
    type := BorrowType.borrowed, status := BStatus.pending, note := none,
    repaid_amount := 0 }

/-- A store holding only `c1BM`. -/
def c1DB : DB :=
  { categories := [], creditCards := [], borrowed := [c1BM], expenses := [],
    payments := [] }

/-- C1: the claim says that after any write — payment create included —
a record's status equals the pure function of repaid amount versus
amount.  The code violates it: POST /api/payments of type 'borrowed'
updates `repaid_amount` through `findByIdAndUpdate`, which skips the
`pre save` status derivation, so paying 40 against a pending record of
amount 100 leaves the status 'pending' although the pure function
yields 'partial'.  (The same bypass affects payment update and delete
and the borrowed-money update route.) -/
theorem status_stale_after_payment_create :
    (createPayment c1DB 7 PayType.borrowed 1 40 0 none none 11).status
      = HStatus.created201 ∧
    ((createPayment c1DB 7 PayType.borrowed 1 40 0 none none 11).db.borrowed.map
      fun b => (b.repaid_amount, b.status)) = [(40, BStatus.pending)] ∧
    statusOf 40 100 = BStatus.partPaid := by
  decide

/-- A partially repaid borrowed record of amount 100 with 60 repaid. -/
def c2BM : BorrowedMoney :=
  { id := 1, user_id := 7, name := "P", phone := none, amount := 100,
    type := BorrowType.borrowed, status := BStatus.partPaid, note := none,
    repaid_amount := 60 }

/-- A store holding only `c2BM`. -/
def c2DB : DB :=
  { categories := [], creditCards := [], borrowed := [c2BM], expenses := [],
    payments := [] }

/-- C2: the claim says that after any write — updating the principal via
PUT /api/borrowed-money/:id included — `0 ≤ repaid_amount ≤ amount`
holds.  The code violates it: the route updates through
`findOneAndUpdate`, which skips the `pre save` clamp, so lowering the
amount of a record with 60 repaid to 50 leaves `repaid_amount = 60 >
amount = 50`. -/
theorem clamp_bypassed_on_borrowed_update :
    (updateBorrowedMoney c2DB 7 1 { amount := some 50 }).status = HStatus.ok200 ∧
    ((updateBorrowedMoney c2DB 7 1 { amount := some 50 }).db.borrowed.map
      fun b => (b.amount, b.repaid_amount)) = [(50, 60)] ∧
    ¬ ((60 : ℚ) ≤ 50) := by
  decide

/-- A borrowed record of amount 100 with one payment of 40 recorded. -/
def c6BM : BorrowedMoney :=
  { id := 1, user_id := 7, name := "P", phone := none, amount := 100,
    type := BorrowType.borrowed, status := BStatus.partPaid, note := none,
    repaid_amount := 40 }

/-- The single payment of 40 against `c6BM`. -/
def c6Pay : Payment :=
  { id := 5, user_id := 7, type := PayType.borrowed, reference_id := 1,
    amount := 40, payment_date := 0, note := none,
    payment_method := PayMethod.cash }

/-- A store holding `c6BM` and its one payment `c6Pay`. -/
def c6DB : DB :=
  { categories := [], creditCards := [], borrowed := [c6BM], expenses := [],
    payments := [c6Pay] }

/-- C6: the claim says that deleting the last payment of a borrowed
record leaves `repaid_amount = 0` and status 'pending'.  The code gets
the amount right but not the status: DELETE /api/payments/:id
recomputes `repaid_amount` (to 0 here) through `findByIdAndUpdate`,
which skips the `pre save` status derivation, so the record stays
'partial'. -/
theorem status_stale_after_last_payment_delete :
    (deletePayment c6DB 7 5).status = HStatus.ok200 ∧
    (deletePayment c6DB 7 5).db.payments = [] ∧
    ((deletePayment c6DB 7 5).db.borrowed.map
      fun b => (b.repaid_amount, b.status)) = [(0, BStatus.partPaid)] := by
  decide

/-- C3: a repay request against an owned record whose amount strictly
exceeds `amount - repaid_amount` is rejected with HTTP 400, writes
nothing — neither a Payment nor a change to the record — and reports
the pre-existing remaining amount in the response. -/
theorem repay_rejects_excess (db : DB) (uid i : Nat) (amount : ℚ)
    (pd : Int) (note : Option String) (pm : Option PayMethod) (newId : Nat)
    (bm : BorrowedMoney)
    (hfind : db.borrowed.find? (fun b => b.id == i && b.user_id == uid) = some bm)
    (hwf : bm.repaid_amount ≤ bm.amount)
    (hgt : bm.amount - bm.repaid_amount < amount) :
    (repay db uid i amount (some pd) note pm newId).status = HStatus.badRequest400 ∧
    (repay db uid i amount (some pd) note pm newId).db = db ∧
    (repay db uid i amount (some pd) note pm newId).remaining_amount
      = some (bm.amount - bm.repaid_amount) := by
  have h0 : (0:ℚ) ≤ bm.amount - bm.repaid_amount := by linarith
  have hpos : ¬ amount ≤ 0 := by intro h; linarith
  simp only [repay, hfind]
  rw [if_neg hpos]
  rw [if_pos hgt]
  exact ⟨rfl, rfl, rfl⟩

/-- C4: a successful payment creation of type 'borrowed' and a
successful repay action both leave the referenced record with
`repaid_amount = min(old_repaid + payment_amount, principal)`.  (On the
repay path the code adds without clamping, but its guard makes the sum
not exceed the principal, so the min formula holds there too.) -/
theorem repaid_min_create_repay :
    (∀ (db : DB) (uid refId : Nat) (a : ℚ) (pd : Int) (note : Option String)
       (pm : Option PayMethod) (newId : Nat) (bm : BorrowedMoney),
       db.borrowed.find? (fun b => b.id == refId && b.user_id == uid) = some bm →
       db.borrowed.find? (fun b => b.id == refId) = some bm →
       (1/100 : ℚ) ≤ a →
       (createPayment db uid PayType.borrowed refId a pd note pm newId).status
         = HStatus.created201 ∧
       ∃ b, (createPayment db uid PayType.borrowed refId a pd note pm newId).db.borrowed.find?
           (fun x => x.id == refId) = some b ∧
         b.repaid_amount = min (bm.repaid_amount + a) bm.amount) ∧
    (∀ (db : DB) (uid i : Nat) (a : ℚ) (pd : Int) (note : Option String)
       (pm : Option PayMethod) (newId : Nat) (bm : BorrowedMoney),
       db.borrowed.find? (fun b => b.id == i && b.user_id == uid) = some bm →
       db.borrowed.find? (fun b => b.id == i) = some bm →
       (1/100 : ℚ) ≤ a →
       0 ≤ bm.repaid_amount →
       a ≤ bm.amount - bm.repaid_amount →
       (repay db uid i a (some pd) note pm newId).status = HStatus.created201 ∧
       ∃ b, (repay db uid i a (some pd) note pm newId).db.borrowed.find?
           (fun x => x.id == i) = some b ∧
         b.repaid_amount = min (bm.repaid_amount + a) bm.amount) := by
  constructor
  · intro db uid refId a pd note pm newId bm hfindU hfindI h001
    have hq := List.find?_some hfindI
    simp only [createPayment, hfindU, createPaymentSave]
    rw [if_pos (show paymentDocValid _ = true by
      simp only [paymentDocValid, decide_eq_true_eq]; exact h001)]
    rw [hfindI]
    exact ⟨rfl, _, find?_mapWhere hfindI hq, rfl⟩
  · intro db uid i a pd note pm newId bm hfindU hfindI h001 hr0 hle
    have hq := List.find?_some hfindI
    have hpos : ¬ a ≤ 0 := by intro h; nlinarith [h001]
    simp only [repay, hfindU]
    rw [if_neg hpos]
    rw [if_neg (show ¬ a > bm.amount - bm.repaid_amount from not_lt.mpr hle)]
    rw [if_pos (show paymentDocValid _ = true by
      simp only [paymentDocValid, decide_eq_true_eq]; exact h001)]
    rw [if_neg (show ¬ bm.repaid_amount + a < 0 by intro h; nlinarith [h001])]
    refine ⟨rfl, ?_⟩
    refine ⟨_, find?_mapWhere hfindI hq, ?_⟩
    show bm.repaid_amount + a = min (bm.repaid_amount + a) bm.amount
    exact (min_eq_left (by linarith)).symm

/-- C5: a successful payment update and a successful payment delete of a
'borrowed' payment whose record still exists leave the record with
`repaid_amount = min(S, principal)`, where S is the sum of the amounts
of the remaining (post-update, non-deleted) payments of type 'borrowed'
referencing it; the ownership hypothesis says every such payment
belongs to the caller, which identifies the route's user-scoped
aggregate with the plain per-record sum. -/
theorem repaid_recomputed_on_update_delete :
    (∀ (db : DB) (uid pid : Nat) (body : PaymentUpdateBody) (pay : Payment)
       (bref : BorrowedMoney),
       db.payments.find? (fun p => p.id == pid && p.user_id == uid) = some pay →
       pay.type = PayType.borrowed →
       paymentUpdateValid body = true →
       db.borrowed.find? (fun b => b.id == pay.reference_id) = some bref →
       (∀ p ∈ (updatePayment db uid pid body).db.payments,
          p.type = PayType.borrowed → p.reference_id = pay.reference_id →
          p.user_id = uid) →
       (updatePayment db uid pid body).status = HStatus.ok200 ∧
       ∃ b, (updatePayment db uid pid body).db.borrowed.find?
           (fun x => x.id == pay.reference_id) = some b ∧
         b.repaid_amount =
           min (sumBorrowedFor (updatePayment db uid pid body).db.payments
             pay.reference_id) bref.amount) ∧
    (∀ (db : DB) (uid pid : Nat) (pay : Payment) (bref : BorrowedMoney),
       db.payments.find? (fun p => p.id == pid && p.user_id == uid) = some pay →
       pay.type = PayType.borrowed →
       db.borrowed.find? (fun b => b.id == pay.reference_id) = some bref →
       (∀ p ∈ (deletePayment db uid pid).db.payments,
          p.type = PayType.borrowed → p.reference_id = pay.reference_id →
          p.user_id = uid) →
       (deletePayment db uid pid).status = HStatus.ok200 ∧
       ∃ b, (deletePayment db uid pid).db.borrowed.find?
           (fun x => x.id == pay.reference_id) = some b ∧
         b.repaid_amount =
           min (sumBorrowedFor (deletePayment db uid pid).db.payments
             pay.reference_id) bref.amount) := by
  constructor
  · intro db uid pid body pay bref hfindP htype hvalid hfindB hOwn
    have hq := List.find?_some hfindB
    simp only [updatePayment, hfindP] at hOwn ⊢
    rw [if_pos hvalid] at hOwn ⊢
    have ht : ((applyPaymentUpdate pay body).type == PayType.borrowed) = true := by
      simp [applyPaymentUpdate, htype]
    rw [if_pos ht] at hOwn ⊢
    dsimp only [applyPaymentUpdate] at hOwn ⊢
    rw [hfindB] at hOwn ⊢
    refine ⟨rfl, ?_⟩
    refine ⟨_, find?_mapWhere hfindB hq, ?_⟩
    show min (totalPaidFor _ uid _) bref.amount = min (sumBorrowedFor _ _) bref.amount
    rw [totalPaid_eq_sumBorrowed _ _ _ hOwn]
  · intro db uid pid pay bref hfindP htype hfindB hOwn
    have hq := List.find?_some hfindB
    simp only [deletePayment, hfindP] at hOwn ⊢
    have ht : (pay.type == PayType.borrowed) = true := by simp [htype]
    rw [if_pos ht] at hOwn ⊢
    rw [hfindB] at hOwn ⊢
    refine ⟨rfl, ?_⟩
    refine ⟨_, find?_mapWhere hfindB hq, ?_⟩
    show min (totalPaidFor _ uid _) bref.amount = min (sumBorrowedFor _ _) bref.amount
    rw [totalPaid_eq_sumBorrowed _ _ _ hOwn]

/-- C7: POST /api/expenses with payment mode 'credit_card' and no
credit card id, or payment mode 'borrowed' and no borrowed id, answers
HTTP 400 and writes no Expense, whatever else the request and the store
contain. -/
theorem expense_create_requires_reference (db : DB) (uid : Nat)
    (req : ExpenseCreateReq) (newId : Nat) (now : Int) :
    (req.payment_mode = some PayMode.creditCard → req.credit_card_id = none →
      (createExpense db uid req newId now).status = HStatus.badRequest400 ∧
      (createExpense db uid req newId now).db = db) ∧
    (req.payment_mode = some PayMode.borrowed → req.borrowed_id = none →
      (createExpense db uid req newId now).status = HStatus.badRequest400 ∧
      (createExpense db uid req newId now).db = db) := by
  obtain ⟨amt, cat, pm0, cc, bid, dt, nt, rc, rf⟩ := req
  constructor
  · intro hmode hcc
    dsimp only at hmode hcc
    subst hmode
    subst hcc
    cases amt with
    | none => exact ⟨rfl, rfl⟩
    | some a =>
      by_cases ha0 : a ≤ 0
      · simp only [createExpense]
        rw [if_pos ha0]
        exact ⟨rfl, rfl⟩
      · simp only [createExpense]
        rw [if_neg ha0]
        cases cat with
        | none => exact ⟨rfl, rfl⟩
        | some cid =>
          dsimp only
          cases hcat : db.categories.find? (fun c => c.id == cid && c.user_id == uid) with
          | none => exact ⟨rfl, rfl⟩
          | some c0 => exact ⟨rfl, rfl⟩
  · intro hmode hbid
    dsimp only at hmode hbid
    subst hmode
    subst hbid
    cases amt with
    | none => exact ⟨rfl, rfl⟩
    | some a =>
      by_cases ha0 : a ≤ 0
      · simp only [createExpense]
        rw [if_pos ha0]
        exact ⟨rfl, rfl⟩
      · simp only [createExpense]
        rw [if_neg ha0]
        cases cat with
        | none => exact ⟨rfl, rfl⟩
        | some cid =>
          dsimp only
          cases hcat : db.categories.find? (fun c => c.id == cid && c.user_id == uid) with
          | none => exact ⟨rfl, rfl⟩
          | some c0 => exact ⟨rfl, rfl⟩

/-- A PUT /api/expenses/:id body that sets the payment mode and nothing
else. -/
def modeOnlyBody (m : PayMode) : ExpenseUpdateBody :=
  { payment_mode := some m }

/-- C8: PUT /api/expenses/:id whose body sets payment mode
'credit_card' but supplies no credit card id skips the conditional
reference check and succeeds, so an expense whose stored credit card
reference is null ends with payment mode 'credit_card' and a null
reference; likewise for 'borrowed' and the borrowed reference. -/
theorem expense_update_skips_reference_check :
    (∀ (db : DB) (uid eid : Nat) (e : Expense),
       db.expenses.find? (fun x => x.id == eid && x.user_id == uid) = some e →
       db.expenses.find? (fun x => x.id == eid) = some e →
       e.credit_card_id = none →
       (updateExpense db uid eid (modeOnlyBody PayMode.creditCard)).status = HStatus.ok200 ∧
       ∃ x, (updateExpense db uid eid (modeOnlyBody PayMode.creditCard)).db.expenses.find?
           (fun y => y.id == eid) = some x ∧
         x.payment_mode = PayMode.creditCard ∧ x.credit_card_id = none) ∧
    (∀ (db : DB) (uid eid : Nat) (e : Expense),
       db.expenses.find? (fun x => x.id == eid && x.user_id == uid) = some e →
       db.expenses.find? (fun x => x.id == eid) = some e →
       e.borrowed_id = none →
       (updateExpense db uid eid (modeOnlyBody PayMode.borrowed)).status = HStatus.ok200 ∧
       ∃ x, (updateExpense db uid eid (modeOnlyBody PayMode.borrowed)).db.expenses.find?
           (fun y => y.id == eid) = some x ∧
         x.payment_mode = PayMode.borrowed ∧ x.borrowed_id = none) := by
  constructor
  · intro db uid eid e hfindU hfindI hcc
    have hq := List.find?_some hfindI
    simp only [updateExpense, modeOnlyBody, hfindU]
    refine ⟨rfl, ?_⟩
    refine ⟨_, find?_mapWhere hfindI hq, ?_⟩
    constructor
    · rfl
    · show (applyExpenseUpdate e (modeOnlyBody PayMode.creditCard)).credit_card_id = none
      simp only [applyExpenseUpdate, modeOnlyBody]
      exact hcc
  · intro db uid eid e hfindU hfindI hbid
    have hq := List.find?_some hfindI
    simp only [updateExpense, modeOnlyBody, hfindU]
    refine ⟨rfl, ?_⟩
    refine ⟨_, find?_mapWhere hfindI hq, ?_⟩
    constructor
    · rfl
    · show (applyExpenseUpdate e (modeOnlyBody PayMode.borrowed)).borrowed_id = none
      simp only [applyExpenseUpdate, modeOnlyBody]
      exact hbid

/-- C9: POST /api/categories is case-insensitively unique per user:
when a user with no category case-matching `n1` creates `n1` and then a
case-insensitive variant `n2` of it, the first create succeeds and the
second is rejected with 400 creating nothing; a different user with no
category case-matching `n2` still creates `n2` successfully. -/
theorem category_name_ci_unique (db : DB) (uid uid2 : Nat) (n1 n2 : String)
    (co1 ic1 co2 ic2 co3 ic3 : Option String) (id1 id2 id3 : Nat)
    (hci : ciEq n2 n1 = true)
    (h1 : ∀ c ∈ db.categories, ¬ (ciEq c.name n1 && c.user_id == uid) = true)
    (h2 : ∀ c ∈ db.categories, ¬ (ciEq c.name n2 && c.user_id == uid2) = true)
    (huser : ¬ uid2 = uid) :
    (createCategory db uid n1 co1 ic1 id1).status = HStatus.created201 ∧
    (createCategory (createCategory db uid n1 co1 ic1 id1).db uid n2 co2 ic2 id2).status
      = HStatus.badRequest400 ∧
    (createCategory (createCategory db uid n1 co1 ic1 id1).db uid n2 co2 ic2 id2).db
      = (createCategory db uid n1 co1 ic1 id1).db ∧
    (createCategory (createCategory db uid n1 co1 ic1 id1).db uid2 n2 co3 ic3 id3).status
      = HStatus.created201 := by
  have hfind1 : db.categories.find? (fun c => ciEq c.name n1 && c.user_id == uid) = none := by
    rw [List.find?_eq_none]
    exact h1
  have hany1 : (db.categories.any fun c => c.name == n1 && c.user_id == uid) = false := by
    rw [List.any_eq_false]
    intro c hc hcontra
    apply h1 c hc
    rw [Bool.and_eq_true] at hcontra ⊢
    exact ⟨ciEq_of_eq (by rw [beq_iff_eq] at hcontra; exact hcontra.1), hcontra.2⟩
  have hout1 : createCategory db uid n1 co1 ic1 id1 =
      ⟨HStatus.created201,
        { db with categories := db.categories ++ [mkCategory uid n1 co1 ic1 id1] }⟩ := by
    simp only [createCategory, hfind1, hany1]
    rfl
  rw [hout1]
  have hsymm := ciEq_symm hci
  have hnone2 : (db.categories.find? fun c => ciEq c.name n2 && c.user_id == uid) = none := by
    rw [List.find?_eq_none]
    intro c hc hcontra
    apply h1 c hc
    rwa [ciEq_congr_right c.name hci] at hcontra
  have hfind2 : ((db.categories ++ [mkCategory uid n1 co1 ic1 id1]).find?
        fun c => ciEq c.name n2 && c.user_id == uid) =
      some (mkCategory uid n1 co1 ic1 id1) := by
    rw [List.find?_append, hnone2]
    rw [List.find?_cons_of_pos]
    · rfl
    · rw [Bool.and_eq_true]
      exact ⟨hsymm, beq_self_eq_true uid⟩
  have hfind3 : ((db.categories ++ [mkCategory uid n1 co1 ic1 id1]).find?
        fun c => ciEq c.name n2 && c.user_id == uid2) = none := by
    rw [List.find?_eq_none]
    intro c hc
    rw [List.mem_append] at hc
    cases hc with
    | inl hc => exact h2 c hc
    | inr hc =>
      rw [List.mem_singleton] at hc
      subst hc
      intro hcontra
      rw [Bool.and_eq_true, beq_iff_eq] at hcontra
      exact huser hcontra.2.symm
  have hany3 : ((db.categories ++ [mkCategory uid n1 co1 ic1 id1]).any
        fun c => c.name == n2 && c.user_id == uid2) = false := by
    rw [List.any_eq_false]
    intro c hc hcontra
    rw [List.mem_append] at hc
    rw [Bool.and_eq_true] at hcontra
    rcases hcontra with ⟨hn, hu⟩
    cases hc with
    | inl hc =>
      apply h2 c hc
      rw [Bool.and_eq_true]
      rw [beq_iff_eq] at hn
      exact ⟨ciEq_of_eq hn, hu⟩
    | inr hc =>
      rw [List.mem_singleton] at hc
      subst hc
      rw [beq_iff_eq] at hu
      exact huser hu.symm
  refine ⟨rfl, ?_, ?_, ?_⟩
  · simp only [createCategory, hfind2]
  · simp only [createCategory, hfind2]
  · simp only [createCategory, hfind3, hany3]
    rfl

/-- C10: the payment totals summary always carries both groups (the
`PaymentTotals` record has both fields by construction), and a type
with no payment matching the caller and date range gets exactly the
zero group, amount 0 and count 0, rather than an error. -/
theorem payment_totals_zero_defaults (db : DB) (uid : Nat) (s e : Option Int) :
    ((db.payments.filter fun p =>
        p.type == PayType.borrowed && (p.user_id == uid && inRange p.payment_date s e)) = [] →
      (paymentSummaryTotals db uid s e).borrowed = ⟨0, 0⟩) ∧
    ((db.payments.filter fun p =>
        p.type == PayType.creditCard && (p.user_id == uid && inRange p.payment_date s e)) = [] →
      (paymentSummaryTotals db uid s e).credit_card = ⟨0, 0⟩) := by
  constructor
  · intro h
    have hg : summaryGroup
        (db.payments.filter fun p => p.user_id == uid && inRange p.payment_date s e)
        PayType.borrowed = none := by
      unfold summaryGroup
      rw [List.filter_filter, h]
      rfl
    simp only [paymentSummaryTotals, hg]
    cases hcc : summaryGroup
        (db.payments.filter fun p => p.user_id == uid && inRange p.payment_date s e)
        PayType.creditCard with
    | none => rfl
    | some g => rfl
  · intro h
    have hg : summaryGroup
        (db.payments.filter fun p => p.user_id == uid && inRange p.payment_date s e)
        PayType.creditCard = none := by
      unfold summaryGroup
      rw [List.filter_filter, h]
      rfl
    simp only [paymentSummaryTotals, hg]
    cases hbr : summaryGroup
        (db.payments.filter fun p => p.user_id == uid && inRange p.payment_date s e)
        PayType.borrowed with
    | none => rfl
    | some g => rfl

/-- An empty store. -/
def emptyDB : DB :=
  { categories := [], creditCards := [], borrowed := [], expenses := [],
    payments := [] }

/-- A borrowed record of amount 100 with 40 repaid. -/
def c3BM : BorrowedMoney :=
  { id := 1, user_id := 7, name := "P", phone := none, amount := 100,
    type := BorrowType.borrowed, status := BStatus.partPaid, note := none,
    repaid_amount := 40 }

/-- A store holding only `c3BM`. -/
def c3DB : DB :=
  { categories := [], creditCards := [], borrowed := [c3BM], expenses := [],
    payments := [] }

/-- Witness for C3: repaying 70 against `c3BM` (remaining 60) is
rejected, mutates nothing and reports the remaining 60. -/
theorem repay_rejects_excess_witness :
    (repay c3DB 7 1 70 (some 0) none none 11).status = HStatus.badRequest400 ∧
    (repay c3DB 7 1 70 (some 0) none none 11).db = c3DB ∧
    (repay c3DB 7 1 70 (some 0) none none 11).remaining_amount
      = some (c3BM.amount - c3BM.repaid_amount) :=
  repay_rejects_excess c3DB 7 1 70 0 none none 11 c3BM (by decide) (by decide)
    (by decide)

/-- A borrowed record of amount 100 with 10 repaid. -/
def c4BM : BorrowedMoney :=
  { id := 1, user_id := 7, name := "P", phone := none, amount := 100,
    type := BorrowType.borrowed, status := BStatus.partPaid, note := none,
    repaid_amount := 10 }

/-- A store holding only `c4BM`. -/
def c4DB : DB :=
  { categories := [], creditCards := [], borrowed := [c4BM], expenses := [],
    payments := [] }

/-- Witness for C4: paying 40 against `c4BM` via either route leaves
repaid amount min(10 + 40, 100). -/
theorem repaid_min_create_repay_witness :
    ((createPayment c4DB 7 PayType.borrowed 1 40 0 none none 11).status
        = HStatus.created201 ∧
      ∃ b, (createPayment c4DB 7 PayType.borrowed 1 40 0 none none 11).db.borrowed.find?
          (fun x => x.id == 1) = some b ∧
        b.repaid_amount = min (c4BM.repaid_amount + 40) c4BM.amount) ∧
    ((repay c4DB 7 1 40 (some 0) none none 11).status = HStatus.created201 ∧
      ∃ b, (repay c4DB 7 1 40 (some 0) none none 11).db.borrowed.find?
          (fun x => x.id == 1) = some b ∧
        b.repaid_amount = min (c4BM.repaid_amount + 40) c4BM.amount) :=
  ⟨repaid_min_create_repay.1 c4DB 7 1 40 0 none none 11 c4BM (by decide) (by decide)
      (by decide),
   repaid_min_create_repay.2 c4DB 7 1 40 0 none none 11 c4BM (by decide) (by decide)
      (by decide) (by decide) (by decide)⟩

/-- A borrowed record of amount 100 with 40 repaid. -/
def c5BM : BorrowedMoney :=
  { id := 1, user_id := 7, name := "P", phone := none, amount := 100,
    type := BorrowType.borrowed, status := BStatus.partPaid, note := none,
    repaid_amount := 40 }

/-- The single payment of 40 against `c5BM`. -/
def c5Pay : Payment :=
  { id := 5, user_id := 7, type := PayType.borrowed, reference_id := 1,
    amount := 40, payment_date := 0, note := none,
    payment_method := PayMethod.cash }

/-- A store holding `c5BM` and its one payment `c5Pay`. -/
def c5DB : DB :=
  { categories := [], creditCards := [], borrowed := [c5BM], expenses := [],
    payments := [c5Pay] }

/-- A payment update body raising the amount to 70. -/
def c5Body : PaymentUpdateBody :=
  { amount := some 70 }

/-- Witness for C5: raising the payment to 70 recomputes repaid to
min(70, 100); deleting the payment recomputes repaid to min(0, 100). -/
theorem repaid_recomputed_on_update_delete_witness :
    ((updatePayment c5DB 7 5 c5Body).status = HStatus.ok200 ∧
      ∃ b, (updatePayment c5DB 7 5 c5Body).db.borrowed.find?
          (fun x => x.id == c5Pay.reference_id) = some b ∧
        b.repaid_amount = min (sumBorrowedFor (updatePayment c5DB 7 5 c5Body).db.payments
          c5Pay.reference_id) c5BM.amount) ∧
    ((deletePayment c5DB 7 5).status = HStatus.ok200 ∧
      ∃ b, (deletePayment c5DB 7 5).db.borrowed.find?
          (fun x => x.id == c5Pay.reference_id) = some b ∧
        b.repaid_amount = min (sumBorrowedFor (deletePayment c5DB 7 5).db.payments
          c5Pay.reference_id) c5BM.amount) :=
  ⟨repaid_recomputed_on_update_delete.1 c5DB 7 5 c5Body c5Pay c5BM (by decide)
      (by decide) (by decide) (by decide) (by decide),
   repaid_recomputed_on_update_delete.2 c5DB 7 5 c5Pay c5BM (by decide) (by decide)
      (by decide) (by decide)⟩

/-- An expense creation request with payment mode 'credit_card' and no
credit card reference. -/
def c7ReqCC : ExpenseCreateReq :=
  { amount := some 5, category_id := some 1,
    payment_mode := some PayMode.creditCard }

/-- An expense creation request with payment mode 'borrowed' and no
borrowed reference. -/
def c7ReqBM : ExpenseCreateReq :=
  { amount := some 5, category_id := some 1,
    payment_mode := some PayMode.borrowed }

/-- Witness for C7: both ill-referenced creation requests are rejected
against the empty store with nothing written. -/
theorem expense_create_requires_reference_witness :
    ((createExpense emptyDB 7 c7ReqCC 9 0).status = HStatus.badRequest400 ∧
      (createExpense emptyDB 7 c7ReqCC 9 0).db = emptyDB) ∧
    ((createExpense emptyDB 7 c7ReqBM 9 0).status = HStatus.badRequest400 ∧
      (createExpense emptyDB 7 c7ReqBM 9 0).db = emptyDB) :=
  ⟨(expense_create_requires_reference emptyDB 7 c7ReqCC 9 0).1 rfl rfl,
   (expense_create_requires_reference emptyDB 7 c7ReqBM 9 0).2 rfl rfl⟩

/-- A cash expense with no credit card and no borrowed reference. -/
def c8Exp : Expense :=
  { id := 3, user_id := 7, amount := 5, category_id := 1,
    payment_mode := PayMode.cash, credit_card_id := none, borrowed_id := none,
    date := 0, note := none, is_recurring := false,
    recurring_frequency := none }

/-- A store holding only `c8Exp`. -/
def c8DB : DB :=
  { categories := [], creditCards := [], borrowed := [], expenses := [c8Exp],
    payments := [] }

/-- Witness for C8: updating `c8Exp` to payment mode 'credit_card'
(resp. 'borrowed') with no reference succeeds and leaves the stored
expense with that mode and a null reference. -/
theorem expense_update_skips_reference_check_witness :
    ((updateExpense c8DB 7 3 (modeOnlyBody PayMode.creditCard)).status = HStatus.ok200 ∧
      ∃ x, (updateExpense c8DB 7 3 (modeOnlyBody PayMode.creditCard)).db.expenses.find?
          (fun y => y.id == 3) = some x ∧
        x.payment_mode = PayMode.creditCard ∧ x.credit_card_id = none) ∧
    ((updateExpense c8DB 7 3 (modeOnlyBody PayMode.borrowed)).status = HStatus.ok200 ∧
      ∃ x, (updateExpense c8DB 7 3 (modeOnlyBody PayMode.borrowed)).db.expenses.find?
          (fun y => y.id == 3) = some x ∧
        x.payment_mode = PayMode.borrowed ∧ x.borrowed_id = none) :=
  ⟨expense_update_skips_reference_check.1 c8DB 7 3 c8Exp (by decide) (by decide) rfl,
   expense_update_skips_reference_check.2 c8DB 7 3 c8Exp (by decide) (by decide) rfl⟩

/-- Witness for C9: user 1 creates Food, then food is rejected for user
1 creating nothing, while user 2 still creates food. -/
theorem category_name_ci_unique_witness :
    (createCategory emptyDB 1 "Food" none none 21).status = HStatus.created201 ∧
    (createCategory (createCategory emptyDB 1 "Food" none none 21).db 1 "food"
        none none 22).status = HStatus.badRequest400 ∧
    (createCategory (createCategory emptyDB 1 "Food" none none 21).db 1 "food"
        none none 22).db = (createCategory emptyDB 1 "Food" none none 21).db ∧
    (createCategory (createCategory emptyDB 1 "Food" none none 21).db 2 "food"
        none none 23).status = HStatus.created201 :=
  category_name_ci_unique emptyDB 1 2 "Food" "food" none none none none none none
    21 22 23 (by decide) (by decide) (by decide) (by decide)

/-- A credit card payment of 25 by user 7. -/
def c10Pay : Payment :=
  { id := 6, user_id := 7, type := PayType.creditCard, reference_id := 2,
    amount := 25, payment_date := 0, note := none,
    payment_method := PayMethod.upi }

/-- A store holding only `c10Pay`. -/
def c10DB : DB :=
  { categories := [], creditCards := [], borrowed := [], expenses := [],
    payments := [c10Pay] }

/-- Witness for C10: with one credit card payment and no borrowed
payments the borrowed group is the zero group; with no payments at all
the credit card group is the zero group. -/
theorem payment_totals_zero_defaults_witness :
    (paymentSummaryTotals c10DB 7 none none).borrowed = ⟨0, 0⟩ ∧
    (paymentSummaryTotals emptyDB 7 none none).credit_card = ⟨0, 0⟩ :=
  ⟨(payment_totals_zero_defaults c10DB 7 none none).1 (by decide),
   (payment_totals_zero_defaults emptyDB 7 none none).2 (by decide)⟩

end Expensify
